import Mathlib

/-!
Shallow embedding of the two code fragments of the StockFlow case study
(`Casestudy.py`): the fixed `create_product` endpoint (Part 1) and the
`get_low_stock` endpoint (Part 3), together with theorems settling the
frozen claims about them.

Conventions:
- JSON request fields that may be absent are `Option`s.
- `Decimal(str(data['price']))` may raise; the parse outcome of the raw
  price value is embedded as `PriceVal` (`valid p` when parsing yields the
  exact decimal `p : ℚ`, `invalid` when the `except` branch fires).
- The database is a record of lists of rows; SQLAlchemy joins become
  nested `List.bind`s with the `WHERE`/`ON` conditions as a filter.
- `datetime` values are integers counting days, so `now - timedelta(days=30)`
  is `now - 30`.
- `get_daily_sales_rate` is not defined anywhere in the repository; it is
  passed to `get_low_stock` as an external function `rate`.
- Whether the commit inside `with db.session.begin()` raises
  `IntegrityError` (the race where the pre-check passed but a concurrent
  insert won) is an input `commitOk : Bool` of `create_product`.
-/

namespace StockFlow

/-! ### Part 1 data model: the fixed `create_product` endpoint -/

namespace CreateAPI

/-- Outcome of `Decimal(str(v))` on the raw JSON value bound to `price`:
either it parses to an exact decimal or the bare `except` fires. -/
inductive PriceVal where
  | valid (p : ℚ)
  | invalid
deriving Repr, DecidableEq

/-- The JSON body of `POST /api/products`; `none` models an absent key
(`field not in data`). -/
structure CreateReq where
  name : Option String
  sku : Option String
  price : Option PriceVal
  warehouse_id : Option Nat
  initial_quantity : Option Int
deriving Repr, DecidableEq

/-- A row of the `products` table as touched by Part 1. The fixed code
constructs `Product(name=..., sku=..., price=...)` without a company, so
the inserted row carries `company_id = none`; rows written by other paths
may carry one (schema: `company_id INT NOT NULL`, `UNIQUE (company_id, sku)`). -/
structure ProductRec where
  id : Nat
  company_id : Option Nat
  name : String
  sku : String
  price : ℚ
deriving Repr, DecidableEq

/-- A row of the `inventory` table as written by Part 1. -/
structure InventoryRec where
  product_id : Nat
  warehouse_id : Nat
  quantity : Int
deriving Repr, DecidableEq

/-- The slice of database state `create_product` reads and writes. -/
structure PDB where
  products : List ProductRec
  inventory : List InventoryRec
deriving Repr, DecidableEq

/-- The generated identifier `db.session.flush()` makes available as
`product.id`: one more than the largest existing product id. -/
def nextProductId (db : PDB) : Nat :=
  (db.products.map (fun p => p.id)).foldr max 0 + 1

/-- An HTTP response as the endpoint returns it: a status code plus the
JSON body fields the code actually emits. -/
structure HttpResp where
  status : Nat
  error : Option String
  message : Option String
  product_id : Option Nat
deriving Repr, DecidableEq

/-- A 4xx/5xx body of the shape `{"error": msg}, status`. -/
def errResp (status : Nat) (msg : String) : HttpResp :=
  { status := status, error := some msg, message := none, product_id := none }

/-- The 201 body `{"message": "Product created successfully", "product_id": pid}`. -/
def createdResp (pid : Nat) : HttpResp :=
  { status := 201, error := none
    message := some "Product created successfully", product_id := some pid }

/-- The fixed `create_product` endpoint (Casestudy.py lines 73-117):
required-field loop over `['name', 'sku', 'price', 'warehouse_id']`, then
the SKU pre-check `Product.query.filter_by(sku=data['sku']).first()`, then
`Decimal` price parsing, then the `initial_quantity` check, then the single
transaction inserting the product and its inventory row, with
`except IntegrityError` mapping to a 500 and a rollback. -/
def create_product (db : PDB) (data : CreateReq) (commitOk : Bool) :
    HttpResp × PDB :=
  match data.name, data.sku, data.price, data.warehouse_id with
  | none, _, _, _ => (errResp 400 "name is required", db)
  | some _, none, _, _ => (errResp 400 "sku is required", db)
  | some _, some _, none, _ => (errResp 400 "price is required", db)
  | some _, some _, some _, none => (errResp 400 "warehouse_id is required", db)
  | some nameV, some skuV, some priceRaw, some warehouseV =>
    if db.products.any (fun p => p.sku == skuV) then
      (errResp 409 "SKU must be unique", db)
    else
      match priceRaw with
      | PriceVal.invalid => (errResp 400 "Invalid price format", db)
      | PriceVal.valid price =>
        let quantity := data.initial_quantity.getD 0
        if quantity < 0 then
          (errResp 400 "Initial quantity cannot be negative", db)
        else
          if commitOk then
            let pid := nextProductId db
            (createdResp pid,
              { products := db.products ++
                  [{ id := pid, company_id := none, name := nameV,
                     sku := skuV, price := price }]
                inventory := db.inventory ++
                  [{ product_id := pid, warehouse_id := warehouseV,
                     quantity := quantity }] })
          else
            (errResp 500 "Database error while creating product", db)

/-- The first field of `['name', 'sku', 'price', 'warehouse_id']` absent
from the request body, if any (the order of the `required_fields` loop). -/
def missingField (data : CreateReq) : Option String :=
  if data.name.isNone then some "name"
  else if data.sku.isNone then some "sku"
  else if data.price.isNone then some "price"
  else if data.warehouse_id.isNone then some "warehouse_id"
  else none

end CreateAPI

/-! ### Part 3 data model: the `get_low_stock` endpoint -/

namespace AlertAPI

/-- A row of `products` as read by Part 3 (the code reads `product.id`,
`product.company_id`, `product.product_name`, `product.sku`,
`product.low_stock_threshold`). -/
structure Product where
  id : Nat
  company_id : Nat
  product_name : String
  sku : String
  low_stock_threshold : Nat
deriving Repr, DecidableEq

/-- A row of `inventory` (schema: `CHECK (quantity >= 0)`, so quantity is a
natural number). -/
structure Inventory where
  product_id : Nat
  warehouse_id : Nat
  quantity : Nat
deriving Repr, DecidableEq

/-- A row of `warehouses`. The source refers to its primary key both as
`Warehouse.id` (in the join) and as `warehouse.warehouse_id` (in the
response body); both name the single key `id` here. -/
structure Warehouse where
  id : Nat
  location_name : String
deriving Repr, DecidableEq

/-- A row of the `supplier_products` many-to-many join table. -/
structure SupplierProduct where
  supplier_id : Nat
  product_id : Nat
deriving Repr, DecidableEq

/-- A row of `suppliers`. The source refers to its primary key both as
`Supplier.id` (in the join) and as `supplier.supplier_id` (in the response
body); both name the single key `id` here. -/
structure Supplier where
  id : Nat
  supplier_name : String
  contact_email : String
deriving Repr, DecidableEq

/-- A row of the sales history table queried by the activity filter. -/
structure Sale where
  product_id : Nat
  warehouse_id : Nat
  date : Int
deriving Repr, DecidableEq

/-- The slice of database state `get_low_stock` reads. -/
structure LDB where
  products : List Product
  inventory : List Inventory
  warehouses : List Warehouse
  supplier_products : List SupplierProduct
  suppliers : List Supplier
  sales : List Sale
deriving Repr, DecidableEq

/-- One alert record, flattening the JSON object the loop appends
(the nested `supplier` object becomes the three `supplier_*` fields). -/
structure Alert where
  product_id : Nat
  product_name : String
  sku : String
  warehouse_id : Nat
  warehouse_name : String
  current_stock : Nat
  threshold : Nat
  days_until_stockout : Int
  supplier_id : Nat
  supplier_name : String
  supplier_contact_email : String
deriving Repr, DecidableEq

/-- The endpoint's JSON body plus its HTTP status. -/
structure LowStockResp where
  alerts : List Alert
  total_alerts : Nat
  status : Nat
deriving Repr, DecidableEq

/-- The five-way join of the source query with its `ON`/`WHERE` conditions:
products x inventory x warehouses x supplier_products x suppliers filtered by
`Product.id == Inventory.product_id`, `Inventory.warehouse_id == Warehouse.id`,
`SupplierProduct.product_id == Product.id`,
`Supplier.id == SupplierProduct.supplier_id`,
`Product.company_id == company_id`, and
`Inventory.quantity <= Product.low_stock_threshold`. -/
def queryRows (db : LDB) (company_id : Nat) :
    List (Product × Inventory × Warehouse × Supplier) :=
  db.products.flatMap (fun product =>
    db.inventory.flatMap (fun inventory =>
      db.warehouses.flatMap (fun warehouse =>
        db.supplier_products.flatMap (fun sp =>
          db.suppliers.filterMap (fun supplier =>
            if product.id = inventory.product_id ∧
                inventory.warehouse_id = warehouse.id ∧
                sp.product_id = product.id ∧
                supplier.id = sp.supplier_id ∧
                product.company_id = company_id ∧
                inventory.quantity ≤ product.low_stock_threshold then
              some (product, inventory, warehouse, supplier)
            else none)))))

/-- `Sale.query.filter(product_id == pid, warehouse_id == wid,
date >= last_month).first()` viewed as a Boolean: is there a sale for the
pair dated on or after `last_month`? -/
def hasRecentSales (sales : List Sale) (pid wid : Nat) (last_month : Int) :
    Bool :=
  sales.any (fun sl =>
    sl.product_id == pid && sl.warehouse_id == wid && decide (last_month ≤ sl.date))

/-- Truncation of a rational toward zero: Python's `int(...)` applied to a
quotient. -/
def ratTrunc (r : ℚ) : ℤ :=
  r.num.tdiv r.den

/-- The stockout projector (Casestudy.py line 303):
`int(inventory.quantity / daily_velocity) if daily_velocity > 0 else 99`. -/
def daysLeft (quantity : Nat) (daily_velocity : ℚ) : ℤ :=
  if 0 < daily_velocity then ratTrunc ((quantity : ℚ) / daily_velocity)
  else 99

/-- The dictionary the loop body appends to `alerts` for one query row. -/
def mkAlert (product : Product) (inventory : Inventory)
    (warehouse : Warehouse) (supplier : Supplier) (days_left : Int) : Alert :=
  { product_id := product.id
    product_name := product.product_name
    sku := product.sku
    warehouse_id := warehouse.id
    warehouse_name := warehouse.location_name
    current_stock := inventory.quantity
    threshold := product.low_stock_threshold
    days_until_stockout := days_left
    supplier_id := supplier.id
    supplier_name := supplier.supplier_name
    supplier_contact_email := supplier.contact_email }

/-- The `get_low_stock` endpoint (Casestudy.py lines 268-322): the joined
low-inventory query, then per row the recent-sales check (skipping rows with
none), the external `get_daily_sales_rate` call (`rate`), the stockout
projection, and the alert dictionary; returns
`{"alerts": alerts, "total_alerts": len(alerts)}, 200`. -/
def get_low_stock (db : LDB) (rate : Nat → Nat → ℚ) (now : Int)
    (company_id : Nat) : LowStockResp :=
  let last_month := now - 30
  let alerts := (queryRows db company_id).filterMap (fun row =>
    match row with
    | (product, inventory, warehouse, supplier) =>
      if hasRecentSales db.sales product.id warehouse.id last_month then
        let daily_velocity := rate product.id warehouse.id
        let days_left := daysLeft inventory.quantity daily_velocity
        some (mkAlert product inventory warehouse supplier days_left)
      else none)
  { alerts := alerts, total_alerts := alerts.length, status := 200 }

/-- The suppliers the join pairs with product `pid`, in join order: for each
`supplier_products` link of `pid`, every supplier row carrying the linked
supplier id. -/
def supplierMatches (sps : List SupplierProduct) (ss : List Supplier)
    (pid : Nat) : List Supplier :=
  sps.flatMap (fun sp =>
    if sp.product_id = pid then ss.filter (fun s => s.id == sp.supplier_id)
    else [])

/-- A concrete database: one company-7 product below threshold in one
warehouse, with a recent sale and two linked suppliers. -/
def twoSupplierDB : LDB :=
  { products := [{ id := 1, company_id := 7, product_name := "Widget A",
                   sku := "WID-001", low_stock_threshold := 20 }]
    inventory := [{ product_id := 1, warehouse_id := 4, quantity := 5 }]
    warehouses := [{ id := 4, location_name := "Main Warehouse" }]
    supplier_products := [{ supplier_id := 10, product_id := 1 },
                          { supplier_id := 20, product_id := 1 }]
    suppliers := [{ id := 10, supplier_name := "Supplier Corp",
                    contact_email := "orders@supplier.com" },
                  { id := 20, supplier_name := "Parts Inc",
                    contact_email := "sales@parts.com" }]
    sales := [{ product_id := 1, warehouse_id := 4, date := 95 }] }

/-- A concrete database: one company-7 product below threshold in one
warehouse, one linked supplier, and one sale dated exactly 30 days before
the evaluation time 100 used in the witnesses. -/
def oneSupplierDB : LDB :=
  { products := [{ id := 1, company_id := 7, product_name := "Widget A",
                   sku := "WID-001", low_stock_threshold := 20 }]
    inventory := [{ product_id := 1, warehouse_id := 4, quantity := 5 }]
    warehouses := [{ id := 4, location_name := "Main Warehouse" }]
    supplier_products := [{ supplier_id := 10, product_id := 1 }]
    suppliers := [{ id := 10, supplier_name := "Supplier Corp",
                    contact_email := "orders@supplier.com" }]
    sales := [{ product_id := 1, warehouse_id := 4, date := 70 }] }

/-- A concrete database: company 7 does own a below-threshold product with a
linked supplier, but its only sale is dated 45 days before the evaluation
time 100 — outside the 30-day window, so nothing qualifies. -/
def staleSalesDB : LDB :=
  { products := [{ id := 1, company_id := 7, product_name := "Widget A",
                   sku := "WID-001", low_stock_threshold := 20 }]
    inventory := [{ product_id := 1, warehouse_id := 4, quantity := 5 }]
    warehouses := [{ id := 4, location_name := "Main Warehouse" }]
    supplier_products := [{ supplier_id := 10, product_id := 1 }]
    suppliers := [{ id := 10, supplier_name := "Supplier Corp",
                    contact_email := "orders@supplier.com" }]
    sales := [{ product_id := 1, warehouse_id := 4, date := 55 }] }

end AlertAPI

end StockFlow

namespace StockFlow

namespace AlertAPI

/-! ### Helper lemmas about the low-stock query -/

/-- Truncation toward zero agrees with the floor on non-negative rationals. -/
theorem ratTrunc_eq_floor (r : ℚ) (h : 0 ≤ r) : ratTrunc r = ⌊r⌋ := by
  rw [ratTrunc, Rat.floor_def]
  exact Int.tdiv_eq_ediv (Rat.num_nonneg.mpr h) (Int.ofNat_nonneg r.den)

/-- Membership in the joined query: a row appears exactly when each component
is a database row and the join/filter conditions hold. -/
theorem mem_queryRows {db : LDB} {cid : Nat}
    {product : Product} {inventory : Inventory} {warehouse : Warehouse}
    {supplier : Supplier} :
    (product, inventory, warehouse, supplier) ∈ queryRows db cid ↔
      product ∈ db.products ∧ inventory ∈ db.inventory ∧
      warehouse ∈ db.warehouses ∧ supplier ∈ db.suppliers ∧
      (∃ sp ∈ db.supplier_products,
        sp.product_id = product.id ∧ supplier.id = sp.supplier_id) ∧
      product.id = inventory.product_id ∧
      inventory.warehouse_id = warehouse.id ∧
      product.company_id = cid ∧
      inventory.quantity ≤ product.low_stock_threshold := by
  simp only [queryRows, List.mem_flatMap, List.mem_filterMap]
  constructor
  · rintro ⟨p, hp, i, hi, w, hw, sp, hsp, s, hs, hcond⟩
    split at hcond
    · rename_i hc
      obtain ⟨h1, h2, h3, h4, h5, h6⟩ := hc
      injection hcond with heq
      simp only [Prod.mk.injEq] at heq
      obtain ⟨rfl, rfl, rfl, rfl⟩ := heq
      exact ⟨hp, hi, hw, hs, ⟨sp, hsp, h3, h4⟩, h1, h2, h5, h6⟩
    · exact absurd hcond (by simp)
  · rintro ⟨hp, hi, hw, hs, ⟨sp, hsp, hsp1, hsp2⟩, h1, h2, h5, h6⟩
    exact ⟨product, hp, inventory, hi, warehouse, hw, sp, hsp, supplier, hs,
      by rw [if_pos ⟨h1, h2, hsp1, hsp2, h5, h6⟩]⟩

/-- Membership in the alerts list: an alert is emitted exactly for the query
rows whose pair passed the recent-sales check. -/
theorem mem_alerts {db : LDB} {rate : Nat → Nat → ℚ} {now : Int} {cid : Nat}
    {a : Alert} :
    a ∈ (get_low_stock db rate now cid).alerts ↔
      ∃ product inventory warehouse supplier,
        (product, inventory, warehouse, supplier) ∈ queryRows db cid ∧
        hasRecentSales db.sales product.id warehouse.id (now - 30) = true ∧
        a = mkAlert product inventory warehouse supplier
          (daysLeft inventory.quantity (rate product.id warehouse.id)) := by
  simp only [get_low_stock, List.mem_filterMap]
  constructor
  · rintro ⟨⟨p, i, w, s⟩, hmem, hsome⟩
    simp only at hsome
    split at hsome
    · rename_i hsal
      exact ⟨p, i, w, s, hmem, hsal, by injection hsome with h; exact h.symm⟩
    · exact absurd hsome (by simp)
  · rintro ⟨p, i, w, s, hmem, hsal, rfl⟩
    exact ⟨(p, i, w, s), hmem, by simp [hsal]⟩

/-- The recent-sales check holds exactly when some sale row of the pair is
dated on or after `last_month`. -/
theorem hasRecentSales_iff {sales : List Sale} {pid wid : Nat}
    {last_month : Int} :
    hasRecentSales sales pid wid last_month = true ↔
      ∃ sl ∈ sales, sl.product_id = pid ∧ sl.warehouse_id = wid ∧
        last_month ≤ sl.date := by
  simp [hasRecentSales, List.any_eq_true, and_assoc]

/-- Conditional `filterMap` over suppliers matching an id is the `map` of the
corresponding `filter`. -/
theorem filterMap_if_eq_map_filter {α : Type} (ss : List Supplier) (sid : Nat)
    (f : Supplier → α) :
    ss.filterMap (fun s => if s.id = sid then some (f s) else none) =
      (ss.filter (fun s => s.id == sid)).map f := by
  induction ss with
  | nil => rfl
  | cons hd tl ih =>
    by_cases h : hd.id = sid
    · simp [List.filterMap_cons, List.filter_cons, h, ih]
    · simp [List.filterMap_cons, List.filter_cons, h, ih]

/-- On a database holding one candidate product/inventory/warehouse triple
satisfying the filter conditions, the join yields exactly one row per
supplier match of the product. -/
theorem queryRows_singleton (p : Product) (i : Inventory) (w : Warehouse)
    (sps : List SupplierProduct) (ss : List Supplier) (sales : List Sale)
    (cid : Nat) (hip : p.id = i.product_id) (hiw : i.warehouse_id = w.id)
    (hc : p.company_id = cid) (hq : i.quantity ≤ p.low_stock_threshold) :
    queryRows ⟨[p], [i], [w], sps, ss, sales⟩ cid =
      (supplierMatches sps ss p.id).map (fun s => (p, i, w, s)) := by
  unfold queryRows supplierMatches
  simp only [List.flatMap_singleton]
  induction sps with
  | nil => rfl
  | cons hd tl ih =>
    simp only [List.flatMap_cons, List.map_append, ih]
    congr 1
    by_cases hpp : hd.product_id = p.id
    · rw [if_pos hpp]
      rw [← filterMap_if_eq_map_filter ss hd.supplier_id
        (fun s => (p, i, w, s))]
      apply List.filterMap_congr
      intro s _
      simp only [hip, hiw, hc, hq, hpp, eq_self_iff_true, true_and, and_true,
        iff_true]
    · rw [if_neg hpp]
      simp only [List.map_nil]
      rw [List.filterMap_eq_nil_iff]
      intro s _
      rw [if_neg]
      intro hcond
      exact hpp (hcond.2.2.1)

end AlertAPI

end StockFlow

namespace StockFlow

/-! ### Claim theorems -/

open AlertAPI

/-- Claim C1, counterexample: on a database whose one below-threshold,
recently-sold product has two linked suppliers, the low-stock output holds
two alert records for the (product, warehouse) pair, not exactly one. -/
theorem c1_counterexample :
    ((get_low_stock twoSupplierDB (fun _ _ => 1) 100 7).alerts.filter
        (fun a => a.product_id == 1 && a.warehouse_id == 4)).length = 2 ∧
    ¬ ((get_low_stock twoSupplierDB (fun _ _ => 1) 100 7).alerts.filter
        (fun a => a.product_id == 1 && a.warehouse_id == 4)).length = 1 := by
  decide

/-- Claim C1, amended: for a (product, warehouse) pair that is below its
threshold and has recent sales activity, the low-stock alerts list contains
one alert record per matching supplier link of the product (each record
carrying that one supplier's id, name, and contact email), so a product
with several linked suppliers yields several records for the pair, not one. -/
theorem c1_alert_per_supplier (p : Product) (i : Inventory) (w : Warehouse)
    (sps : List SupplierProduct) (ss : List Supplier) (sales : List Sale)
    (rate : Nat → Nat → ℚ) (now : Int) (cid : Nat)
    (hip : p.id = i.product_id) (hiw : i.warehouse_id = w.id)
    (hc : p.company_id = cid) (hq : i.quantity ≤ p.low_stock_threshold)
    (hsal : hasRecentSales sales p.id w.id (now - 30) = true) :
    (get_low_stock ⟨[p], [i], [w], sps, ss, sales⟩ rate now cid).alerts =
      (supplierMatches sps ss p.id).map (fun s =>
        mkAlert p i w s (daysLeft i.quantity (rate p.id w.id))) := by
  simp only [get_low_stock]
  rw [queryRows_singleton p i w sps ss sales cid hip hiw hc hq,
    List.filterMap_map]
  generalize supplierMatches sps ss p.id = L
  induction L with
  | nil => rfl
  | cons hd tl ih =>
    simp only [List.filterMap_cons, List.map_cons, Function.comp_apply]
    simp only [hsal, if_true]
    rw [ih]

/-- Claim C1, witness: on the two-supplier database the alert list is the
per-supplier-match map, yielding one record for each of the two suppliers. -/
theorem c1_witness :
    (get_low_stock twoSupplierDB (fun _ _ => 1) 100 7).alerts =
      (supplierMatches twoSupplierDB.supplier_products
          twoSupplierDB.suppliers 1).map (fun s =>
        mkAlert { id := 1, company_id := 7, product_name := "Widget A",
                  sku := "WID-001", low_stock_threshold := 20 }
          { product_id := 1, warehouse_id := 4, quantity := 5 }
          { id := 4, location_name := "Main Warehouse" } s
          (daysLeft 5 1)) :=
  c1_alert_per_supplier
    { id := 1, company_id := 7, product_name := "Widget A",
      sku := "WID-001", low_stock_threshold := 20 }
    { product_id := 1, warehouse_id := 4, quantity := 5 }
    { id := 4, location_name := "Main Warehouse" }
    twoSupplierDB.supplier_products twoSupplierDB.suppliers
    twoSupplierDB.sales (fun _ _ => 1) 100 7
    rfl rfl rfl (by decide) (by decide)

/-- Claim C3: the stockout projector returns the floor of quantity divided
by velocity (truncation toward zero, which agrees with the floor on these
non-negative inputs) when the velocity is positive, and the sentinel 99
when it is zero; in particular quantity 100 at velocity 10 gives 10 and
any quantity at velocity 0 gives 99. -/
theorem c3_stockout_projection :
    (∀ (quantity : ℕ) (velocity : ℚ), 0 < velocity →
      daysLeft quantity velocity = ⌊(quantity : ℚ) / velocity⌋) ∧
    (∀ quantity : ℕ, daysLeft quantity 0 = 99) ∧
    daysLeft 100 10 = 10 ∧ daysLeft 5 0 = 99 := by
  refine ⟨fun q v hv => ?_, fun q => ?_, ?_, ?_⟩
  · rw [daysLeft, if_pos hv]
    exact ratTrunc_eq_floor _ (div_nonneg (Nat.cast_nonneg q) (le_of_lt hv))
  · simp [daysLeft]
  · rw [daysLeft, if_pos (by norm_num : (0:ℚ) < 10),
      ratTrunc_eq_floor _ (by positivity)]
    rw [show ((100:ℕ):ℚ) / 10 = ((10:ℤ):ℚ) by norm_num, Int.floor_intCast]
  · simp [daysLeft]

/-- Claim C3, witness: the positive-velocity branch applied at quantity 7,
velocity 3. -/
theorem c3_witness : daysLeft 7 3 = ⌊((7 : ℕ) : ℚ) / 3⌋ :=
  c3_stockout_projection.1 7 3 (by decide)

/-- Claim C5: a candidate row of the joined low-inventory query contributes
to the output exactly when some sale for its (product, warehouse) pair is
dated on or after `now - 30` (inclusive bound); with no such sale the pair
is absent from the output entirely. -/
theorem c5_recent_sales_filter (db : LDB) (rate : Nat → Nat → ℚ) (now : Int)
    (cid : Nat) (product : Product) (inventory : Inventory)
    (warehouse : Warehouse) (supplier : Supplier)
    (hrow : (product, inventory, warehouse, supplier) ∈ queryRows db cid) :
    (∃ a ∈ (get_low_stock db rate now cid).alerts,
        a.product_id = product.id ∧ a.warehouse_id = warehouse.id) ↔
      ∃ sl ∈ db.sales, sl.product_id = product.id ∧
        sl.warehouse_id = warehouse.id ∧ now - 30 ≤ sl.date := by
  rw [← hasRecentSales_iff]
  constructor
  · rintro ⟨a, ha, hpid, hwid⟩
    rw [mem_alerts] at ha
    obtain ⟨p', i', w', s', _, hsal', rfl⟩ := ha
    simp only [mkAlert] at hpid hwid
    rwa [hpid, hwid] at hsal'
  · intro hsal
    refine ⟨mkAlert product inventory warehouse supplier
      (daysLeft inventory.quantity (rate product.id warehouse.id)),
      ?_, rfl, rfl⟩
    exact mem_alerts.mpr
      ⟨product, inventory, warehouse, supplier, hrow, hsal, rfl⟩

/-- Claim C5, witness: on the one-supplier database whose only sale is dated
exactly 30 days before evaluation time 100, the pair does appear (inclusive
lower bound). -/
theorem c5_witness :
    ∃ a ∈ (get_low_stock oneSupplierDB (fun _ _ => 1) 100 7).alerts,
      a.product_id = 1 ∧ a.warehouse_id = 4 :=
  (c5_recent_sales_filter oneSupplierDB (fun _ _ => 1) 100 7
    { id := 1, company_id := 7, product_name := "Widget A",
      sku := "WID-001", low_stock_threshold := 20 }
    { product_id := 1, warehouse_id := 4, quantity := 5 }
    { id := 4, location_name := "Main Warehouse" }
    { id := 10, supplier_name := "Supplier Corp",
      contact_email := "orders@supplier.com" }
    (by decide)).mpr (by decide)

/-- Claim C6: the low-stock endpoint always answers HTTP 200 with
`total_alerts` equal to the length of the alerts list; the alert list is
empty exactly when no candidate row of the joined below-threshold query has
recent sales activity — covering a company whose products all fail to
qualify (e.g. only stale sales) as well as an unknown company identifier,
for which additionally no product row matches at all; in every such case
the body is `{"alerts": [], "total_alerts": 0}`, never an error. -/
theorem c6_response_shape (db : LDB) (rate : Nat → Nat → ℚ) (now : Int)
    (cid : Nat) :
    (get_low_stock db rate now cid).status = 200 ∧
    (get_low_stock db rate now cid).total_alerts =
      (get_low_stock db rate now cid).alerts.length ∧
    ((get_low_stock db rate now cid).alerts = [] ↔
      ∀ row ∈ queryRows db cid,
        hasRecentSales db.sales row.1.id row.2.2.1.id (now - 30) = false) ∧
    ((∀ p ∈ db.products, p.company_id ≠ cid) →
      (get_low_stock db rate now cid).alerts = [] ∧
      (get_low_stock db rate now cid).total_alerts = 0) := by
  have hempty : (get_low_stock db rate now cid).alerts = [] ↔
      ∀ row ∈ queryRows db cid,
        hasRecentSales db.sales row.1.id row.2.2.1.id (now - 30) = false := by
    simp only [get_low_stock]
    rw [List.filterMap_eq_nil_iff]
    constructor
    · intro h row hrow
      rcases row with ⟨p, i, w, s⟩
      have h2 := h (p, i, w, s) hrow
      by_contra hb
      rw [Bool.not_eq_false] at hb
      simp only at h2 hb
      rw [if_pos hb] at h2
      exact Option.noConfusion h2
    · intro h row hrow
      rcases row with ⟨p, i, w, s⟩
      have h2 := h (p, i, w, s) hrow
      simp only at h2 ⊢
      rw [if_neg]
      rw [h2]
      exact Bool.false_ne_true
  refine ⟨rfl, rfl, hempty, fun h => ?_⟩
  have hq : ∀ row ∈ queryRows db cid,
      hasRecentSales db.sales row.1.id row.2.2.1.id (now - 30) = false := by
    rintro ⟨p, i, w, s⟩ hmem
    rw [mem_queryRows] at hmem
    exact absurd hmem.2.2.2.2.2.2.2.1 (h p hmem.1)
  have halerts := hempty.mpr hq
  refine ⟨halerts, ?_⟩
  show (get_low_stock db rate now cid).alerts.length = 0
  rw [halerts]
  rfl

/-- Claim C6, witness: company 7 owns a below-threshold product of the
stale-sales database, but its only sale is 45 days old, so nothing
qualifies and the alert list is empty with count zero; likewise the
unknown company 9 of the one-supplier database gets the empty response. -/
theorem c6_witness :
    ((get_low_stock staleSalesDB (fun _ _ => 1) 100 7).alerts = [] ∧
      (get_low_stock staleSalesDB (fun _ _ => 1) 100 7).total_alerts = 0) ∧
    (get_low_stock oneSupplierDB (fun _ _ => 1) 100 9).alerts = [] ∧
    (get_low_stock oneSupplierDB (fun _ _ => 1) 100 9).total_alerts = 0 :=
  ⟨⟨(c6_response_shape staleSalesDB (fun _ _ => 1) 100 7).2.2.1.mpr
      (by decide),
    ((c6_response_shape staleSalesDB (fun _ _ => 1) 100 7).2.1).trans
      (by rw [(c6_response_shape staleSalesDB (fun _ _ => 1) 100 7).2.2.1.mpr
        (by decide)]; rfl)⟩,
   (c6_response_shape oneSupplierDB (fun _ _ => 1) 100 9).2.2.2 (by decide)⟩

/-- Claim C9: a product with zero supplier links never crashes the request:
the endpoint still returns status 200 (it is a total function of the data)
and no alert record mentions that product; being a pure function of the
database, repeated calls over the same data give the same outcome. -/
theorem c9_zero_suppliers (db : LDB) (rate : Nat → Nat → ℚ) (now : Int)
    (cid pid : Nat)
    (h : ∀ sp ∈ db.supplier_products, sp.product_id ≠ pid) :
    (get_low_stock db rate now cid).status = 200 ∧
    ∀ a ∈ (get_low_stock db rate now cid).alerts, a.product_id ≠ pid := by
  refine ⟨rfl, fun a ha => ?_⟩
  rw [mem_alerts] at ha
  obtain ⟨p', i', w', s', hrow, _, rfl⟩ := ha
  rw [mem_queryRows] at hrow
  obtain ⟨_, _, _, _, ⟨sp, hsp, hspid, _⟩, _⟩ := hrow
  simp only [mkAlert]
  intro hcontra
  exact h sp hsp (hspid.trans hcontra)

/-- Claim C9, witness: product 2 has no supplier link in the one-supplier
database; the response is still a 200 and mentions only other products. -/
theorem c9_witness :
    (get_low_stock oneSupplierDB (fun _ _ => 1) 100 7).status = 200 ∧
    ∀ a ∈ (get_low_stock oneSupplierDB (fun _ _ => 1) 100 7).alerts,
      a.product_id ≠ 2 :=
  c9_zero_suppliers oneSupplierDB (fun _ _ => 1) 100 7 2 (by decide)

end StockFlow

namespace StockFlow

/-- Claim C2, counterexample: the pre-check ignores companies. With the only
existing "ABC" product owned by company 1, a request submitting SKU "ABC"
(the endpoint body carries no company at all) is answered 409 although no
product of any other company — e.g. company 2 — carries that SKU. -/
theorem c2_counterexample :
    (CreateAPI.create_product
        { products := [{ id := 1, company_id := some 1, name := "Widget",
                         sku := "ABC", price := 5 }], inventory := [] }
        { name := some "Gadget", sku := some "ABC",
          price := some (CreateAPI.PriceVal.valid 2),
          warehouse_id := some 4, initial_quantity := none } true).1.status
        = 409 ∧
    ([{ id := 1, company_id := some 1, name := "Widget", sku := "ABC",
        price := 5 }] : List CreateAPI.ProductRec).all
      (fun p => p.company_id != some 2) = true := by
  constructor
  · rfl
  · decide

/-- Claim C2, amended: the SKU pre-check is global across companies: with
all required fields present, the endpoint answers
409 `{"error": "SKU must be unique"}` exactly when any existing product —
of any company — carries the submitted SKU. -/
theorem c2_sku_check_global (db : CreateAPI.PDB) (data : CreateAPI.CreateReq)
    (ok : Bool) (nameV skuV : String) (priceRaw : CreateAPI.PriceVal)
    (wid : Nat)
    (hn : data.name = some nameV) (hs : data.sku = some skuV)
    (hp : data.price = some priceRaw) (hw : data.warehouse_id = some wid) :
    (CreateAPI.create_product db data ok).1 =
        CreateAPI.errResp 409 "SKU must be unique" ↔
      db.products.any (fun p => p.sku == skuV) = true := by
  cases hA : db.products.any (fun p => p.sku == skuV) with
  | true => simp [CreateAPI.create_product, hn, hs, hp, hw, hA]
  | false =>
    simp only [Bool.false_eq_true, iff_false]
    cases priceRaw with
    | invalid =>
      simp [CreateAPI.create_product, hn, hs, hp, hw, hA, CreateAPI.errResp]
    | valid pr =>
      by_cases hq : data.initial_quantity.getD 0 < 0
      · simp [CreateAPI.create_product, hn, hs, hp, hw, hA, hq,
          CreateAPI.errResp]
      · cases ok
        · simp [CreateAPI.create_product, hn, hs, hp, hw, hA, hq,
            CreateAPI.errResp]
        · simp [CreateAPI.create_product, hn, hs, hp, hw, hA, hq,
            CreateAPI.errResp, CreateAPI.createdResp]

/-- Claim C2, witness: the amended equivalence applied on a database whose
only product (company 1) carries the submitted SKU. -/
theorem c2_witness :
    (CreateAPI.create_product
        { products := [{ id := 1, company_id := some 1, name := "Widget",
                         sku := "ABC", price := 5 }], inventory := [] }
        { name := some "Gadget", sku := some "ABC",
          price := some (CreateAPI.PriceVal.valid 2),
          warehouse_id := some 4, initial_quantity := none } true).1 =
      CreateAPI.errResp 409 "SKU must be unique" :=
  (c2_sku_check_global _ _ true "Gadget" "ABC" (CreateAPI.PriceVal.valid 2) 4
    rfl rfl rfl rfl).mpr (by decide)

/-- Claim C4: a validated create-product request is atomic: either the call
returns 201 and the new state holds both the product row and its matching
inventory row appended together, or the commit failed, the response is
HTTP 500 `{"error": "Database error while creating product"}`, and the
state is exactly the prior one (all partial writes rolled back). -/
theorem c4_create_product_atomic (db : CreateAPI.PDB)
    (data : CreateAPI.CreateReq) (ok : Bool) (nameV skuV : String) (pr : ℚ)
    (wid : Nat)
    (hn : data.name = some nameV) (hs : data.sku = some skuV)
    (hp : data.price = some (CreateAPI.PriceVal.valid pr))
    (hw : data.warehouse_id = some wid)
    (hsku : db.products.any (fun p => p.sku == skuV) = false)
    (hq : ¬ data.initial_quantity.getD 0 < 0) :
    (CreateAPI.create_product db data ok =
      (CreateAPI.createdResp (CreateAPI.nextProductId db),
        { products := db.products ++
            [{ id := CreateAPI.nextProductId db, company_id := none,
               name := nameV, sku := skuV, price := pr }]
          inventory := db.inventory ++
            [{ product_id := CreateAPI.nextProductId db, warehouse_id := wid,
               quantity := data.initial_quantity.getD 0 }] })) ∨
    (CreateAPI.create_product db data ok =
      (CreateAPI.errResp 500 "Database error while creating product", db)) := by
  cases ok
  · right
    simp [CreateAPI.create_product, hn, hs, hp, hw, hsku, hq]
  · left
    simp [CreateAPI.create_product, hn, hs, hp, hw, hsku, hq]

/-- Claim C4, witness: the atomicity disjunction at a concrete request on
the empty database with a successful commit. -/
theorem c4_witness :
    (CreateAPI.create_product { products := [], inventory := [] }
        { name := some "Widget", sku := some "W-1",
          price := some (CreateAPI.PriceVal.valid 3), warehouse_id := some 2,
          initial_quantity := some 6 } true =
      (CreateAPI.createdResp 1,
        { products := [{ id := 1, company_id := none, name := "Widget",
                         sku := "W-1", price := 3 }]
          inventory := [{ product_id := 1, warehouse_id := 2,
                          quantity := 6 }] })) ∨
    (CreateAPI.create_product { products := [], inventory := [] }
        { name := some "Widget", sku := some "W-1",
          price := some (CreateAPI.PriceVal.valid 3), warehouse_id := some 2,
          initial_quantity := some 6 } true =
      (CreateAPI.errResp 500 "Database error while creating product",
        { products := [], inventory := [] })) :=
  c4_create_product_atomic { products := [], inventory := [] } _ true
    "Widget" "W-1" 3 2 rfl rfl rfl rfl rfl (by decide)

/-- Claim C7: a request body missing a required field is answered
400 `{"error": "<field> is required"}` for the first missing field in the
order name, sku, price, warehouse_id, and the database is unchanged. -/
theorem c7_missing_field_400 (db : CreateAPI.PDB) (data : CreateAPI.CreateReq)
    (ok : Bool) (f : String)
    (hf : CreateAPI.missingField data = some f) :
    CreateAPI.create_product db data ok =
      (CreateAPI.errResp 400 (f ++ " is required"), db) := by
  rcases data with ⟨dn, ds, dp, dw, diq⟩
  cases dn <;> cases ds <;> cases dp <;> cases dw <;>
    simp_all [CreateAPI.missingField, CreateAPI.create_product] <;>
    (subst hf; rfl)

/-- Claim C7, witness: sku is the first missing field of a request lacking
both sku and price, and is the one reported. -/
theorem c7_witness :
    CreateAPI.create_product { products := [], inventory := [] }
        { name := some "Widget", sku := none, price := none,
          warehouse_id := some 2, initial_quantity := none } true =
      (CreateAPI.errResp 400 ("sku" ++ " is required"),
        { products := [], inventory := [] }) :=
  c7_missing_field_400 _ _ true "sku" rfl

/-- Claim C8: omitting `initial_quantity` stores inventory quantity 0, and a
negative `initial_quantity` is rejected with
400 `{"error": "Initial quantity cannot be negative"}` with the database
unchanged (no write). -/
theorem c8_initial_quantity :
    (∀ (db : CreateAPI.PDB) (data : CreateAPI.CreateReq)
        (nameV skuV : String) (pr : ℚ) (wid : Nat),
      data.name = some nameV → data.sku = some skuV →
      data.price = some (CreateAPI.PriceVal.valid pr) →
      data.warehouse_id = some wid →
      data.initial_quantity = none →
      db.products.any (fun p => p.sku == skuV) = false →
      (CreateAPI.create_product db data true).2.inventory =
        db.inventory ++
          [{ product_id := CreateAPI.nextProductId db, warehouse_id := wid,
             quantity := 0 }]) ∧
    (∀ (db : CreateAPI.PDB) (data : CreateAPI.CreateReq) (ok : Bool)
        (nameV skuV : String) (pr : ℚ) (wid : Nat) (q : Int),
      data.name = some nameV → data.sku = some skuV →
      data.price = some (CreateAPI.PriceVal.valid pr) →
      data.warehouse_id = some wid →
      data.initial_quantity = some q → q < 0 →
      db.products.any (fun p => p.sku == skuV) = false →
      CreateAPI.create_product db data ok =
        (CreateAPI.errResp 400 "Initial quantity cannot be negative", db)) := by
  constructor
  · intro db data nameV skuV pr wid hn hs hp hw hiq hsku
    simp [CreateAPI.create_product, hn, hs, hp, hw, hiq, hsku]
  · intro db data ok nameV skuV pr wid q hn hs hp hw hiq hq hsku
    simp [CreateAPI.create_product, hn, hs, hp, hw, hiq, hsku, hq]

/-- Claim C8, witness: on the empty database, omitting the quantity stores
0, and quantity -4 is rejected with the database unchanged. -/
theorem c8_witness :
    (CreateAPI.create_product { products := [], inventory := [] }
        { name := some "Widget", sku := some "W-1",
          price := some (CreateAPI.PriceVal.valid 3), warehouse_id := some 2,
          initial_quantity := none } true).2.inventory =
      [{ product_id := 1, warehouse_id := 2, quantity := 0 }] ∧
    CreateAPI.create_product { products := [], inventory := [] }
        { name := some "Widget", sku := some "W-1",
          price := some (CreateAPI.PriceVal.valid 3), warehouse_id := some 2,
          initial_quantity := some (-4) } true =
      (CreateAPI.errResp 400 "Initial quantity cannot be negative",
        { products := [], inventory := [] }) :=
  ⟨c8_initial_quantity.1 _ _ "Widget" "W-1" 3 2 rfl rfl rfl rfl rfl rfl,
   c8_initial_quantity.2 _ _ true "Widget" "W-1" 3 2 (-4) rfl rfl rfl rfl rfl
     (by decide) rfl⟩

/-- Claim C10: with all required fields present, a duplicate SKU wins over
later validation: even when the price is unparsable or the initial quantity
negative, the response is the 409 SKU conflict, because the pre-check runs
before price parsing and the quantity check. -/
theorem c10_sku_check_first (db : CreateAPI.PDB) (data : CreateAPI.CreateReq)
    (ok : Bool) (nameV skuV : String) (priceRaw : CreateAPI.PriceVal)
    (wid : Nat)
    (hn : data.name = some nameV) (hs : data.sku = some skuV)
    (hp : data.price = some priceRaw) (hw : data.warehouse_id = some wid)
    (hdup : db.products.any (fun p => p.sku == skuV) = true)
    (_hbad : priceRaw = CreateAPI.PriceVal.invalid ∨
      data.initial_quantity.getD 0 < 0) :
    CreateAPI.create_product db data ok =
      (CreateAPI.errResp 409 "SKU must be unique", db) := by
  simp [CreateAPI.create_product, hn, hs, hp, hw, hdup]

/-- Claim C10, witness: duplicate SKU together with an unparsable price and
a negative quantity still yields the 409. -/
theorem c10_witness :
    CreateAPI.create_product
        { products := [{ id := 1, company_id := some 1, name := "Widget",
                         sku := "ABC", price := 5 }], inventory := [] }
        { name := some "Gadget", sku := some "ABC",
          price := some CreateAPI.PriceVal.invalid, warehouse_id := some 4,
          initial_quantity := some (-2) } false =
      (CreateAPI.errResp 409 "SKU must be unique",
        { products := [{ id := 1, company_id := some 1, name := "Widget",
                         sku := "ABC", price := 5 }], inventory := [] }) :=
  c10_sku_check_first _ _ false "Gadget" "ABC" CreateAPI.PriceVal.invalid 4
    rfl rfl rfl rfl (by decide) (Or.inl rfl)

end StockFlow
